import Mathlib

/-!
Verification of the Zoom OAuth credential lifecycle and rate-limited API
client of `services/zoom_service.py`.

Modelling conventions:
* Timestamps (`datetime.utcnow()`, ISO strings in the store) are integers
  (seconds); `time.time()` instants in the rate limiter are rationals,
  since the pacing interval is 0.02 s.
* The credential table has a uniqueness constraint on `user_id` and every
  operation filters on one `user_id`, so the store is modelled as the view
  for the user in question: `Option Credential` (the row, or none).
* `get_valid_access_token` performs two reads of the store (one directly,
  one inside `is_token_expired`); the embedding takes both read results as
  parameters (`read1`, `read2`).  Sequential executions have
  `read1 = read2`.
* Network responses are environment parameters: the provider's reply to a
  refresh POST, and the list of HTTP responses successive attempts of an
  authenticated request receive.
* Python strings transformed character by character (`str.replace` with
  one-character patterns) are `List Char`.
-/

/-- Row of the `zoom_credentials` table, with the columns written by
`store_credentials` / `update_tokens`.  `expires_at` is `none` when the
column is absent or empty (the falsy check in `is_token_expired`). -/
structure Credential where
  user_id : String
  access_token : String
  refresh_token : String
  expires_at : Option Int
  zoom_user_id : Option String
  zoom_email : Option String
  created_at : Int
  updated_at : Int
deriving DecidableEq

/-- The `ZoomAPIError` exception: message, optional HTTP status, optional
provider error code (constructor defaults are `None`). -/
structure ZoomAPIError where
  message : String
  status_code : Option Nat
  error_code : Option String
deriving DecidableEq

/-- Parsed JSON body of a successful `POST /oauth/token` response: the
fields `get_valid_access_token` reads out of `token_data`. -/
structure OAuthTokenData where
  access_token : String
  refresh_token : String
  expires_in : Int
deriving DecidableEq

/-- Environment's answer to a token-refresh POST: HTTP 200 with a parsed
token body, or a non-200 status with a response text. -/
inductive ProviderTokenResponse where
  | ok (body : OAuthTokenData)
  | err (status : Nat) (text : String)
deriving DecidableEq

/-- `ZoomService.refresh_access_token`: on a non-200 response raises
`ZoomAPIError` with the provider's status and text; on 200 returns the
parsed JSON.  The stored refresh token is the request's input; the
outcome is decided by the environment `resp`. -/
def refresh_access_token ( refresh_token : String)
    (resp : ProviderTokenResponse) : Except ZoomAPIError OAuthTokenData :=
  match resp with
  | .ok body => .ok body
  | .err status text =>
      .error ⟨"Failed to refresh token: " ++ text, some status, none⟩

/-- `ZoomCredentialService.is_token_expired` after its `get_credentials`
read: `True` when no row or no `expires_at`, else `utcnow() > expires_at`
(strict). -/
def is_token_expired (now : Int) (credentials : Option Credential) : Bool :=
  match credentials with
  | none => true
  | some c =>
      match c.expires_at with
      | none => true
      | some expiry => decide (now > expiry)

/-- `ZoomCredentialService.update_tokens`: updates the row matching
`user_id` (if any) with the new tokens, `expires_at = utcnow() +
expires_in` and a fresh `updated_at`; returns the success flag (store
errors are out of model, so `true`). -/
def update_tokens (now : Int) (store : Option Credential)
    (tok rtok : String) (expires_in : Int) : Option Credential × Bool :=
  (store.map (fun c =>
    { c with
      access_token := tok
      refresh_token := rtok
      expires_at := some (now + expires_in)
      updated_at := now }), true)

/-- Observable outcome of one `get_valid_access_token` call: the returned
token, the store afterwards, whether a refresh POST was issued, and
whether the store was written. -/
structure TokenResult where
  token : Option String
  store : Option Credential
  refreshCalled : Bool
  storeWritten : Bool
deriving DecidableEq

/-- `ZoomCredentialService.get_valid_access_token`.  `tCheck` is the
`utcnow()` of the expiry check, `tRefresh` the `utcnow()` of
`update_tokens`; `read1`/`read2` are the results of the two
`get_credentials` reads; `resp` is the provider's answer should a refresh
POST be made.  The write applies to the store as of the second read.
A `ZoomAPIError` from the refresh is caught and collapsed to `none`. -/
def get_valid_access_token (tCheck tRefresh : Int)
    (read1 read2 : Option Credential)
    (resp : ProviderTokenResponse) : TokenResult :=
  match read1 with
  | none => ⟨none, none, false, false⟩
  | some credentials =>
      if is_token_expired tCheck read2 then
        match refresh_access_token credentials.refresh_token resp with
        | .ok token_data =>
            let w := update_tokens tRefresh read2 token_data.access_token
              token_data.refresh_token token_data.expires_in
            ⟨some token_data.access_token, w.1, true, true⟩
        | .error _ => ⟨none, read2, true, false⟩
      else
        ⟨some credentials.access_token, read2, false, false⟩

/-- Mutable state of `ZoomRateLimiter` (`__init__` sets all three to 0).
Instants are rationals since the pacing interval is 0.02 s. -/
structure ZoomRateLimiterState where
  last_call : ℚ
  call_count : Nat
  reset_time : ℚ

/-- Hourly-window step at the top of `wait_if_needed`: when the current
time has passed `reset_time`, zero the counter and set the deadline to
one hour from now. -/
def resetIfNeeded (st : ZoomRateLimiterState) (now : ℚ) :
    ZoomRateLimiterState :=
  if now > st.reset_time then
    { st with call_count := 0, reset_time := now + 3600 }
  else st

/-- `ZoomRateLimiter.wait_if_needed` entered at instant `now`: the hourly
reset, then a sleep of `0.02 - (now - last_call)` when that gap is below
0.02 s; afterwards `last_call` is re-read from the clock (so it equals
`now` plus the sleep) and the counter is incremented.  Returns the new
state and the seconds slept. -/
def wait_if_needed (st : ZoomRateLimiterState) (now : ℚ) :
    ZoomRateLimiterState × ℚ :=
  let st1 := resetIfNeeded st now
  let time_since_last := now - st.last_call
  let sleep := if time_since_last < 1/50 then 1/50 - time_since_last else 0
  ({ st1 with last_call := now + sleep, call_count := st1.call_count + 1 },
    sleep)

/-- Request arguments of `ZoomService._make_authenticated_request`; the
query/body payloads are opaque here. -/
structure ZoomRequest where
  method : String
  endpoint : String
  access_token : String
deriving DecidableEq

/-- One HTTP response as the request primitive inspects it: status code,
parsed JSON body (for success paths), raw text, whether the content type
is JSON, and the `message`/`code` fields of a JSON error body. -/
structure HttpResponse where
  status : Nat
  body : String
  text : String
  isJson : Bool
  jsonMessage : Option String
  jsonCode : Option String
deriving DecidableEq

/-- Outcome of `_make_authenticated_request`: its return or raised
`ZoomAPIError`, plus instrumentation counting the 429 retries and the
seconds slept in 429 cool-downs. -/
structure RequestOutcome where
  result : Except ZoomAPIError String
  retries : Nat
  slept : Nat

/-- Error body lookup of the non-401/429 branch:
`error_data = response.json() if json content type else empty dict`,
message defaulting to `response.text`. -/
def errorMessageOf (r : HttpResponse) : String :=
  "Zoom API error: " ++ (if r.isJson then r.jsonMessage.getD r.text else r.text)

/-- Error code lookup of the non-401/429 branch: `error_data.get('code')`. -/
def errorCodeOf (r : HttpResponse) : Option String :=
  if r.isJson then r.jsonCode else none

/-- `ZoomService._make_authenticated_request` over the sequence of
responses successive attempts receive.  A 401 raises the distinguished
token-expired error at once; a 429 sleeps 60 s and re-issues the same
`req` against the remaining responses; any other status ≥ 400 raises a
`ZoomAPIError` built from the error body; otherwise the JSON body is
returned.  (The empty-responses case cannot arise at runtime — every
attempt gets an answer — and is closed off with a transport error.) -/
def make_authenticated_request (req : ZoomRequest) :
    List HttpResponse → RequestOutcome
  | [] => ⟨.error ⟨"no response", none, none⟩, 0, 0⟩
  | r :: rest =>
      if r.status = 401 then
        ⟨.error ⟨"Access token expired or invalid", some 401,
          some "token_expired"⟩, 0, 0⟩
      else if r.status = 429 then
        let o := make_authenticated_request req rest
        ⟨o.result, o.retries + 1, o.slept + 60⟩
      else if r.status ≥ 400 then
        ⟨.error ⟨errorMessageOf r, some r.status, errorCodeOf r⟩, 0, 0⟩
      else
        ⟨.ok r.body, 0, 0⟩

/-- `str.replace` of Python for a one-character pattern `c`: every
occurrence of `c` becomes the string `r`. -/
def replaceChar (c : Char) (r : List Char) : List Char → List Char
  | [] => []
  | x :: xs => (if x = c then r else [x]) ++ replaceChar c r xs

/-- The encoding step of `ZoomService.get_meeting_participants`:
`meeting_uuid.replace(sol, pct-2F).replace(plus, pct-2B).replace(eq,
pct-3D)`, applied innermost first exactly as chained in the source. -/
def encode_meeting_uuid (s : List Char) : List Char :=
  replaceChar '=' "%3D".data
    (replaceChar '+' "%2B".data
      (replaceChar '/' "%2F".data s))

/-- Path built by `get_meeting_participants`: the encoded UUID
interpolated into the participants endpoint. -/
def get_meeting_participants_endpoint (meeting_uuid : List Char) :
    List Char :=
  "/meetings/".data ++ encode_meeting_uuid meeting_uuid
    ++ "/participants".data

/-- Value of a hexadecimal digit character, `none` for non-hex, written
on code points (48-57 digits, 65-70 upper, 97-102 lower). -/
def hexDigitVal (c : Char) : Option Nat :=
  let n := c.toNat
  if 48 ≤ n ∧ n ≤ 57 then some (n - 48)
  else if 65 ≤ n ∧ n ≤ 70 then some (n - 55)
  else if 97 ≤ n ∧ n ≤ 102 then some (n - 87)
  else none

/-- Modelled from the spec: the repository contains no decoder, but the
spec's round-trip sentence ("round-tripping to the same logical id when
decoded") needs standard percent-decoding of a path segment.  A `%`
followed by two hex digits becomes the denoted code point; a `%` not
followed by two hex digits is left as literal text. -/
def percentDecode : List Char → List Char
  | [] => []
  | c :: rest =>
      if c = '%' then
        match rest with
        | a :: b :: rest2 =>
            match hexDigitVal a, hexDigitVal b with
            | some hi, some lo =>
                Char.ofNat (16 * hi + lo) :: percentDecode rest2
            | _, _ => c :: a :: b :: percentDecode rest2
        | _ => c :: rest
      else c :: percentDecode rest

/-- Per-character view of `encode_meeting_uuid` (proved below to agree
with the chained replaces): the three URL-unsafe characters map to their
escape sequences, everything else is untouched. -/
def encChar (x : Char) : List Char :=
  if x = '/' then "%2F".data
  else if x = '+' then "%2B".data
  else if x = '=' then "%3D".data
  else [x]

theorem replaceChar_append (c : Char) (r xs ys : List Char) :
    replaceChar c r (xs ++ ys)
      = replaceChar c r xs ++ replaceChar c r ys := by
  induction xs with
  | nil => rfl
  | cons x t ih => simp [replaceChar, ih]

theorem encode_meeting_uuid_cons (x : Char) (s : List Char) :
    encode_meeting_uuid (x :: s) = encChar x ++ encode_meeting_uuid s := by
  by_cases h1 : x = '/'
  · subst h1
    simp [encode_meeting_uuid, encChar, replaceChar, replaceChar_append]
  · by_cases h2 : x = '+'
    · subst h2
      simp [encode_meeting_uuid, encChar, replaceChar, replaceChar_append]
    · by_cases h3 : x = '='
      · subst h3
        simp [encode_meeting_uuid, encChar, replaceChar, replaceChar_append]
      · simp [encode_meeting_uuid, encChar, replaceChar,
          replaceChar_append, h1, h2, h3]

theorem percentDecode_cons_ne (c : Char) (t : List Char) (h : ¬ c = '%') :
    percentDecode (c :: t) = c :: percentDecode t := by
  rw [percentDecode.eq_def]
  simp [h]

theorem percentDecode_2F (t : List Char) :
    percentDecode ('%' :: '2' :: 'F' :: t) = '/' :: percentDecode t := by
  simp [percentDecode, hexDigitVal]

theorem percentDecode_2B (t : List Char) :
    percentDecode ('%' :: '2' :: 'B' :: t) = '+' :: percentDecode t := by
  simp [percentDecode, hexDigitVal]

theorem percentDecode_3D (t : List Char) :
    percentDecode ('%' :: '3' :: 'D' :: t) = '=' :: percentDecode t := by
  simp [percentDecode, hexDigitVal]

/-- Decoding undoes the participant-endpoint encoding on every identifier
free of `%`; shared kernel of the amended C8. -/
theorem percentDecode_encode_of_no_pct (s : List Char) (hs : '%' ∉ s) :
    percentDecode (encode_meeting_uuid s) = s := by
  induction s with
  | nil => rfl
  | cons x t ih =>
      have hx : x ≠ '%' := fun h => hs (h ▸ List.mem_cons_self x t)
      have ht : '%' ∉ t := fun h => hs (List.mem_cons_of_mem x h)
      rw [encode_meeting_uuid_cons]
      by_cases h1 : x = '/'
      · subst h1
        have he : encChar '/' = ['%', '2', 'F'] := rfl
        rw [he]
        simpa [percentDecode_2F] using congrArg (List.cons '/') (ih ht)
      · by_cases h2 : x = '+'
        · subst h2
          have he : encChar '+' = ['%', '2', 'B'] := rfl
          rw [he]
          simpa [percentDecode_2B] using congrArg (List.cons '+') (ih ht)
        · by_cases h3 : x = '='
          · subst h3
            have he : encChar '=' = ['%', '3', 'D'] := rfl
            rw [he]
            simpa [percentDecode_3D] using congrArg (List.cons '=') (ih ht)
          · have he : encChar x = [x] := by simp [encChar, h1, h2, h3]
            rw [he, List.singleton_append,
              percentDecode_cons_ne x _ hx, ih ht]

/-- C8, counterexample: the round-trip claim quantified over all
identifiers containing a URL-unsafe character fails, because the chained
replaces do not escape `%` itself: the identifier `/%32` contains `/`,
yet its encoding `%2F%32` percent-decodes to `/2`, not back to `/%32`. -/
theorem encode_decode_not_roundtrip :
    '/' ∈ "/%32".data ∧
      percentDecode (encode_meeting_uuid "/%32".data) ≠ "/%32".data := by
  decide

/-- C8, amended: for every meeting identifier that contains one of the
URL-unsafe characters and no `%` (Zoom meeting UUIDs are base64, so they
never contain `%`), `get_meeting_participants` interpolates the
percent-encoded identifier into the path, and percent-decoding that
segment yields the original identifier. -/
theorem encode_decode_roundtrip (s : List Char)
    (hurl : '/' ∈ s ∨ '+' ∈ s ∨ '=' ∈ s) (hs : '%' ∉ s) :
    get_meeting_participants_endpoint s
        = "/meetings/".data ++ encode_meeting_uuid s ++ "/participants".data
      ∧ percentDecode (encode_meeting_uuid s) = s :=
  ⟨rfl, percentDecode_encode_of_no_pct s hs⟩

/-- Witness for `encode_decode_roundtrip` on a base64-style identifier
containing all three unsafe characters. -/
theorem encode_decode_roundtrip_witness :
    percentDecode (encode_meeting_uuid "a/b+cd==".data) = "a/b+cd==".data :=
  (encode_decode_roundtrip "a/b+cd==".data (by decide) (by decide)).2

/-- C3: for a stored credential, `is_token_expired` is true iff
`expires_at` is absent or strictly less than the current time; at
`now = expires_at` exactly it returns false. -/
theorem is_token_expired_iff (now : Int) (c : Credential) :
    (is_token_expired now (some c) = true ↔
      c.expires_at = none ∨ ∃ t, c.expires_at = some t ∧ t < now)
    ∧ (c.expires_at = some now → is_token_expired now (some c) = false) := by
  constructor
  · cases h : c.expires_at with
    | none => simp [is_token_expired, h]
    | some t =>
        simp only [is_token_expired, h]
        constructor
        · intro hlt
          right
          exact ⟨t, rfl, by simpa [gt_iff_lt] using of_decide_eq_true hlt⟩
        · rintro (hnone | ⟨t', ht', hlt⟩)
          · exact absurd hnone (by simp)
          · cases Option.some.inj ht'
            simpa [gt_iff_lt] using hlt
  · intro h
    simp [is_token_expired, h]

/-- Witness for `is_token_expired_iff` at a concrete credential whose
`expires_at` equals the current time. -/
theorem is_token_expired_iff_witness :
    is_token_expired 5
      (some ⟨"u", "a", "r", some 5, none, none, 0, 0⟩) = false :=
  (is_token_expired_iff 5 ⟨"u", "a", "r", some 5, none, none, 0, 0⟩).2 rfl

/-- C1: for an expired stored credential, when the refresh POST succeeds
with `(a, r, e)`, `get_valid_access_token` persists the row with the new
tokens, `expires_at` = refresh time + `expires_in` and a bumped
`updated_at`, and returns the new access token. -/
theorem get_valid_access_token_refresh_success
    (tCheck tRefresh : Int) (c : Credential) (a r : String) (e : Int)
    (hexp : is_token_expired tCheck (some c) = true) :
    get_valid_access_token tCheck tRefresh (some c) (some c) (.ok ⟨a, r, e⟩)
      = ⟨some a,
          some { c with
            access_token := a
            refresh_token := r
            expires_at := some (tRefresh + e)
            updated_at := tRefresh },
          true, true⟩ := by
  simp [get_valid_access_token, hexp, refresh_access_token, update_tokens]

/-- Witness for `get_valid_access_token_refresh_success` at a credential
expired one second before the check. -/
theorem get_valid_access_token_refresh_success_witness :
    get_valid_access_token 10 11
      (some ⟨"u", "old", "oldr", some 9, none, none, 0, 0⟩)
      (some ⟨"u", "old", "oldr", some 9, none, none, 0, 0⟩)
      (.ok ⟨"newa", "newr", 3600⟩)
      = ⟨some "newa",
          some ⟨"u", "newa", "newr", some 3611, none, none, 0, 11⟩,
          true, true⟩ :=
  get_valid_access_token_refresh_success 10 11
    ⟨"u", "old", "oldr", some 9, none, none, 0, 0⟩
    "newa" "newr" 3600 (by decide)

/-- C2: for an expired stored credential, when the refresh POST fails the
call returns `none`, makes no store write, leaves the row exactly as it
was, and the provider's `ZoomAPIError` is swallowed (the result type has
no error channel). -/
theorem get_valid_access_token_refresh_failure
    (tCheck tRefresh : Int) (c : Credential) (status : Nat) (text : String)
    (hexp : is_token_expired tCheck (some c) = true) :
    get_valid_access_token tCheck tRefresh (some c) (some c)
        (.err status text)
      = ⟨none, some c, true, false⟩ := by
  simp [get_valid_access_token, hexp, refresh_access_token]

/-- Witness for `get_valid_access_token_refresh_failure` at a credential
with no `expires_at` and a provider 400. -/
theorem get_valid_access_token_refresh_failure_witness :
    get_valid_access_token 10 11
      (some ⟨"u", "old", "oldr", none, none, none, 0, 0⟩)
      (some ⟨"u", "old", "oldr", none, none, none, 0, 0⟩)
      (.err 400 "invalid_grant")
      = ⟨none, some ⟨"u", "old", "oldr", none, none, none, 0, 0⟩,
          true, false⟩ :=
  get_valid_access_token_refresh_failure 10 11
    ⟨"u", "old", "oldr", none, none, none, 0, 0⟩
    400 "invalid_grant" (by decide)

/-- C4: for a non-expired stored credential, `get_valid_access_token`
returns the stored access token, makes no refresh POST (whatever the
environment would answer) and performs no store write. -/
theorem get_valid_access_token_not_expired
    (tCheck tRefresh : Int) (c : Credential) (resp : ProviderTokenResponse)
    (hexp : is_token_expired tCheck (some c) = false) :
    get_valid_access_token tCheck tRefresh (some c) (some c) resp
      = ⟨some c.access_token, some c, false, false⟩ := by
  simp [get_valid_access_token, hexp]

/-- Witness for `get_valid_access_token_not_expired` at a credential whose
expiry is strictly in the future. -/
theorem get_valid_access_token_not_expired_witness :
    get_valid_access_token 10 11
      (some ⟨"u", "tok", "rtok", some 20, none, none, 0, 0⟩)
      (some ⟨"u", "tok", "rtok", some 20, none, none, 0, 0⟩)
      (.ok ⟨"x", "y", 1⟩)
      = ⟨some "tok",
          some ⟨"u", "tok", "rtok", some 20, none, none, 0, 0⟩,
          false, false⟩ :=
  get_valid_access_token_not_expired 10 11
    ⟨"u", "tok", "rtok", some 20, none, none, 0, 0⟩
    (.ok ⟨"x", "y", 1⟩) (by decide)

/-- C5: with no stored credential, `get_valid_access_token` returns `none`
without any refresh POST and without writing the store. -/
theorem get_valid_access_token_no_credential
    (tCheck tRefresh : Int) (resp : ProviderTokenResponse) :
    get_valid_access_token tCheck tRefresh none none resp
      = ⟨none, none, false, false⟩ := rfl

/-- C10: a missing credential is folded into "expired":
`is_token_expired` on no row is true, and a credential that disappears
between the two store reads of `get_valid_access_token` sends the call
down the refresh (expired) branch. -/
theorem is_token_expired_missing_credential
    (now tRefresh : Int) (c : Credential) (resp : ProviderTokenResponse) :
    is_token_expired now none = true ∧
      (get_valid_access_token now tRefresh (some c) none resp).refreshCalled
        = true := by
  refine ⟨rfl, ?_⟩
  cases resp with
  | ok body => simp [get_valid_access_token, refresh_access_token,
      is_token_expired]
  | err status text => simp [get_valid_access_token, refresh_access_token,
      is_token_expired]

/-- C9: consecutive completions of `wait_if_needed` (recorded in
`last_call`) are never closer than the 0.02 s minimum interval; a call
arriving early is delayed by exactly the remaining delta rather than
rejected; and once `now` passes the stored deadline the hourly counter is
reset to zero (so the post-call count is 1) and the deadline becomes
`now + 3600`. -/
theorem wait_if_needed_spec (st : ZoomRateLimiterState) (now : ℚ) :
    ((wait_if_needed st now).1.last_call - st.last_call ≥ 1/50)
    ∧ (now - st.last_call < 1/50 →
        (wait_if_needed st now).2 = 1/50 - (now - st.last_call))
    ∧ (now > st.reset_time →
        (resetIfNeeded st now).call_count = 0
        ∧ (resetIfNeeded st now).reset_time = now + 3600
        ∧ (wait_if_needed st now).1.call_count = 1
        ∧ (wait_if_needed st now).1.reset_time = now + 3600) := by
  refine ⟨?_, ?_, ?_⟩
  · by_cases h : now - st.last_call < 1/50
    · simp only [wait_if_needed, if_pos h]
      linarith
    · simp only [wait_if_needed, if_neg h]
      push_neg at h
      linarith
  · intro h
    simp only [wait_if_needed, if_pos h]
  · intro h
    refine ⟨?_, ?_, ?_, ?_⟩ <;> simp [wait_if_needed, resetIfNeeded, h]

/-- Witness for `wait_if_needed_spec`: from the initial state, a call at
`now = 0.01` is inside the 0.02 window (slept 0.01) and past the initial
deadline 0 (counter reset, deadline 3600.01). -/
theorem wait_if_needed_spec_witness :
    (wait_if_needed ⟨0, 0, 0⟩ (1/100)).2 = 1/100
    ∧ (resetIfNeeded ⟨0, 0, 0⟩ (1/100)).call_count = 0
    ∧ (wait_if_needed ⟨0, 0, 0⟩ (1/100)).1.reset_time = 1/100 + 3600 := by
  have h := wait_if_needed_spec ⟨0, 0, 0⟩ (1/100)
  refine ⟨?_, ?_, ?_⟩
  · have h2 := h.2.1 (by norm_num)
    rw [h2]
    norm_num
  · exact (h.2.2 (by norm_num)).1
  · exact (h.2.2 (by norm_num)).2.2.2

/-- C6: a 401 response makes the request primitive raise the
token-expired `ZoomAPIError` (code `token_expired`, status 401)
immediately, with zero retries. -/
theorem make_authenticated_request_on_401
    (req : ZoomRequest) (r : HttpResponse) (rest : List HttpResponse)
    (h : r.status = 401) :
    make_authenticated_request req (r :: rest)
      = ⟨.error ⟨"Access token expired or invalid", some 401,
          some "token_expired"⟩, 0, 0⟩ := by
  simp [make_authenticated_request, h]

/-- Witness for `make_authenticated_request_on_401` at a concrete 401. -/
theorem make_authenticated_request_on_401_witness :
    make_authenticated_request ⟨"GET", "/users/me", "tok"⟩
      [⟨401, "", "unauthorized", false, none, none⟩]
      = ⟨.error ⟨"Access token expired or invalid", some 401,
          some "token_expired"⟩, 0, 0⟩ :=
  make_authenticated_request_on_401 ⟨"GET", "/users/me", "tok"⟩
    ⟨401, "", "unauthorized", false, none, none⟩ [] rfl

/-- C7: each 429 sleeps a fixed 60 s and re-issues the identical request
once; in particular a 429 followed by a 200 returns the 200 body after
exactly one retry and one 60 s cool-down. -/
theorem make_authenticated_request_on_429
    (req : ZoomRequest) (r : HttpResponse) :
    (∀ rest, r.status = 429 →
      make_authenticated_request req (r :: rest)
        = ⟨(make_authenticated_request req rest).result,
            (make_authenticated_request req rest).retries + 1,
            (make_authenticated_request req rest).slept + 60⟩)
    ∧ (∀ r2 : HttpResponse, r.status = 429 → r2.status = 200 →
      make_authenticated_request req [r, r2]
        = ⟨.ok r2.body, 1, 60⟩) := by
  constructor
  · intro rest h
    simp [make_authenticated_request, h]
  · intro r2 h h2
    simp [make_authenticated_request, h, h2]

/-- Witness for `make_authenticated_request_on_429` on the concrete
sequence 429 then 200. -/
theorem make_authenticated_request_on_429_witness :
    make_authenticated_request ⟨"GET", "/users/me", "tok"⟩
      [⟨429, "", "rate limited", false, none, none⟩,
       ⟨200, "ok-body", "ok-body", true, none, none⟩]
      = ⟨.ok "ok-body", 1, 60⟩ :=
  (make_authenticated_request_on_429 ⟨"GET", "/users/me", "tok"⟩
      ⟨429, "", "rate limited", false, none, none⟩).2
    ⟨200, "ok-body", "ok-body", true, none, none⟩ rfl rfl
